import Mathlib

/-
Verification of the morsel.db store engine (src/src/database.ts together with
the error catalog module).

Shallow embedding notes:
* JS values are modelled by `Val`, a tree of numbers, booleans, strings,
  ordered sequences and string-keyed mappings, plus `null` and `undefined`.
  JS numbers are modelled as rationals; none of the properties verified here
  depend on IEEE-754 rounding, NaN or signed zero.
  A hole created by `delete` on an array element is modelled by an `undefined`
  element: property reads of a hole give undefined and JSON.stringify renders
  a hole as null, which is exactly how `undefined` elements behave below.
* The in-memory map `this.data` is an association list preserving insertion
  order.  (The JS enumeration quirk that integer-like keys are listed first is
  not modelled; no claim depends on enumeration order.)
* The backing file at `this.filePath` is modelled by `Store.disk`: `none`
  means the file does not exist, `some d` means the file holds the
  serialization of document `d`.  File content is modelled at the level of the
  parsed document because JSON.stringify is injective on the (normalized)
  value domain; `jnormFields` is the normalization JSON.stringify applies
  (undefined array elements become null, undefined-valued fields are dropped).
* fs.writeFile may fail for environmental reasons; this is modelled by an
  explicit oracle argument `writeOk`.  fs.unlink is modelled as failing
  exactly when the file is absent.
* Each method of the Database class is a function from its arguments and the
  current store to a result paired with the next store.  Dynamically typed
  arguments (checked with typeof in the source) are passed as `Val`.
  A thrown catalog error is `Except.error` of the corresponding `Err` member;
  the divide-by-zero site throws `errors.DIVISION_BY_ZERO`, a key the error
  catalog module does not define, so the thrown JS value is undefined,
  modelled by `Err.undefinedThrown`.
* Prototype-chain property access (e.g. reading an inherited method through
  `object[subKey]`) is outside the structured-data domain and is not
  modelled; own properties of plain objects and of arrays (index properties
  and `length`) are modelled.
-/

namespace Morsel

/-- JS values reachable in the store: the structured-data domain plus the
null and undefined sentinels. -/
inductive Val where
  | undefined : Val
  | null : Val
  | num : Rat → Val
  | bool : Bool → Val
  | str : String → Val
  | arr : List Val → Val
  | obj : List (String × Val) → Val

/-- A document: the in-memory map, an insertion-ordered association list. -/
abbrev Doc := List (String × Val)

/-- Thrown values.  The first six members are the error catalog exported by
the errors module.  `undefinedThrown` is the value of the expression
`errors.DIVISION_BY_ZERO`: the catalog does not define that key, so the
divide-by-zero throw site throws the JS undefined value. -/
inductive Err where
  | FILE_NOT_FOUND : Err
  | INVALID_JSON : Err
  | INVALID_VALUE : Err
  | KEY_NOT_FOUND : Err
  | OBJECT_NOT_FOUND : Err
  | ARRAY_NOT_FOUND : Err
  | undefinedThrown : Err
deriving DecidableEq, Repr

/-- The store: resolved file path, in-memory data, and the backing file
(`none` = absent; `some d` = file holds the serialization of `d`). -/
structure Store where
  filePath : String
  data : Doc
  disk : Option Doc

/-- `d[k]` in JS: the own property value, undefined when absent. -/
def lookupD (d : Doc) (k : String) : Val :=
  match d with
  | [] => .undefined
  | (k1, v) :: rest => if k1 = k then v else lookupD rest k

/-- `d[k] = v` in JS: update in place when the key exists, append otherwise. -/
def setKey : Doc → String → Val → Doc
  | [], k, v => [(k, v)]
  | (k1, v1) :: rest, k, v =>
      if k1 = k then (k, v) :: rest else (k1, v1) :: setKey rest k v

/-- `delete d[k]` in JS on a plain object: remove the own property. -/
def removeKey (d : Doc) (k : String) : Doc :=
  d.filter fun p => decide (p.1 ≠ k)

mutual

/-- Image of a value under JSON.stringify followed by parsing: undefined
array elements (holes) render as null, undefined-valued object fields are
dropped.  All other values are fixed. -/
def jnorm : Val → Val
  | .undefined => .null
  | .null => .null
  | .num q => .num q
  | .bool b => .bool b
  | .str s => .str s
  | .arr xs => .arr (jnormList xs)
  | .obj fs => .obj (jnormFields fs)

def jnormList : List Val → List Val
  | [] => []
  | x :: xs => jnorm x :: jnormList xs

def jnormFields : Doc → Doc
  | [] => []
  | (_k, .undefined) :: rest => jnormFields rest
  | (k, v) :: rest => (k, jnorm v) :: jnormFields rest

end

/-- v === undefined -/
def Val.isUndefined : Val → Bool
  | .undefined => true
  | _ => false

/-- v === null -/
def Val.isNull : Val → Bool
  | .null => true
  | _ => false

/-- typeof v === "number" -/
def Val.isNum : Val → Bool
  | .num _ => true
  | _ => false

/-- typeof v === "string" -/
def Val.isStr : Val → Bool
  | .str _ => true
  | _ => false

/-- Array.isArray(v) -/
def Val.isArr : Val → Bool
  | .arr _ => true
  | _ => false

/-- Number.isInteger(v): a number whose value is a mathematical integer. -/
def Val.isIntNum : Val → Bool
  | .num q => q.den = 1
  | _ => false

/-- The guard `object && typeof object === "object"` (equivalently
`!(!object || typeof object !== "object")`): true exactly for arrays and
non-null objects.  null has typeof object but is falsy; undefined and the
primitives fail the typeof test (the falsy primitives 0, empty string and
false are also caught by the truthiness test). -/
def isObjectLike : Val → Bool
  | .obj _ => true
  | .arr _ => true
  | _ => false

/-- Canonical array-index strings: a digit string with no leading zero
(except the string 0 itself).  (The upper bound 2^32-1 on JS array indices
is not modelled; no claim exercises it.) -/
def digitsToNat : List Char → Nat → Nat
  | [], acc => acc
  | c :: cs, acc => digitsToNat cs (acc * 10 + (c.toNat - 48))

def parseIndex (s : String) : Option Nat :=
  match s.data with
  | [] => none
  | c :: cs =>
      if (c :: cs).all Char.isDigit then
        if c = '0' ∧ cs ≠ [] then none
        else some (digitsToNat (c :: cs) 0)
      else none

/-- Own-property read `v[k]` with a string key, for the object-like values:
fields of a plain object; index properties and length of an array.  A hole
(undefined element) reads as undefined, as in JS. -/
def getOwnProp (v : Val) (k : String) : Val :=
  match v with
  | .obj fs => lookupD fs k
  | .arr xs =>
      if k = "length" then .num xs.length
      else
        match parseIndex k with
        | some i => xs.getD i .undefined
        | none => .undefined
  | _ => .undefined

/-- `delete v[k]` with a string key on an object-like value: removes a field
of a plain object; on an array an in-range index property becomes a hole
(length unchanged), anything else is a no-op.  (Deleting the non-configurable
length property of an array, a strict-mode TypeError, is not modelled; no
claim exercises it.) -/
def deleteOwnProp (v : Val) (k : String) : Val :=
  match v with
  | .obj fs => .obj (removeKey fs k)
  | .arr xs =>
      match parseIndex k with
      | some i => if i < xs.length then .arr (xs.set i .undefined) else .arr xs
      | none => .arr xs
  | w => w

/-- JS strict equality as used by the delete-by-value filter.  On primitives
it is value equality.  Composite values compare by reference; the model has
no reference identity, so two composite values are conservatively taken to be
distinct references.  (No claim depends on which elements the filter keeps.) -/
def jsStrictEq : Val → Val → Bool
  | .num a, .num b => decide (a = b)
  | .bool a, .bool b => a = b
  | .str a, .str b => decide (a = b)
  | .null, .null => true
  | .undefined, .undefined => true
  | _, _ => false

/-- JS String.prototype.startsWith: code-unit prefix test, modelled on the
character list of the string. -/
def strStartsWith (s pre : String) : Bool :=
  pre.data.isPrefixOf s.data

/-- The array at a key about to be pushed into: `this.data[key]` when it is
already an array, otherwise the fresh empty array the source installs
(`if (!Array.isArray(this.data[key])) this.data[key] = []`). -/
def coerceArr : Val → List Val
  | .arr xs => xs
  | _ => []

namespace Database

/-- JS method results: a thrown value or a return value, paired with the
store after the call (methods may mutate `this.data` and the file). -/
abbrev Result (α : Type) := Except Err α × Store

/-- `save()`: `fs.writeFile(this.filePath, JSON.stringify(this.data, null, 2))`,
rethrown as FILE_NOT_FOUND on any write failure.  The oracle `writeOk` decides
whether the write succeeds. -/
def save (writeOk : Bool) (s : Store) : Result Unit :=
  if writeOk then (.ok (), { s with disk := some (jnormFields s.data) })
  else (.error .FILE_NOT_FOUND, s)

/-- `set(key, value)` -/
def set (writeOk : Bool) (key value : Val) (s : Store) : Result Unit :=
  match key with
  | .str k =>
      if value.isNull || value.isUndefined then (.error .INVALID_VALUE, s)
      else save writeOk { s with data := setKey s.data k value }
  | _ => (.error .INVALID_VALUE, s)

/-- `push(key, value)` -/
def push (writeOk : Bool) (key value : Val) (s : Store) : Result Unit :=
  match key with
  | .str k =>
      if value.isNull || value.isUndefined then (.error .INVALID_VALUE, s)
      else
        save writeOk
          { s with data := setKey s.data k (.arr (coerceArr (lookupD s.data k) ++ [value])) }
  | _ => (.error .INVALID_VALUE, s)

/-- `objectFetch(key, subKey)` -/
def objectFetch (key subKey : Val) (s : Store) : Result Val :=
  match key, subKey with
  | .str k, .str sk =>
      let object := lookupD s.data k
      if isObjectLike object then (.ok (getOwnProp object sk), s)
      else (.error .OBJECT_NOT_FOUND, s)
  | _, _ => (.error .INVALID_VALUE, s)

/-- `arrayFetch(key, index)` -/
def arrayFetch (key index : Val) (s : Store) : Result Val :=
  match key, index with
  | .str k, .num q =>
      if q.den = 1 then
        match lookupD s.data k with
        | .arr xs =>
            (.ok (if 0 ≤ q.num ∧ q.num < (xs.length : Int) then xs.getD q.num.toNat .undefined
                  else .undefined), s)
        | _ => (.error .ARRAY_NOT_FOUND, s)
      else (.error .INVALID_VALUE, s)
  | _, _ => (.error .INVALID_VALUE, s)

/-- `fetch(key)` -/
def fetch (key : Val) (s : Store) : Result Val :=
  match key with
  | .str k => (.ok (lookupD s.data k), s)
  | _ => (.error .INVALID_VALUE, s)

/-- `remove(key)` -/
def remove (writeOk : Bool) (key : Val) (s : Store) : Result Unit :=
  match key with
  | .str k => save writeOk { s with data := removeKey s.data k }
  | _ => (.error .INVALID_VALUE, s)

/-- `delete(key, value)`: filters an array entry; silent no-op (no save)
when the entry is not an array. -/
def delete (writeOk : Bool) (key value : Val) (s : Store) : Result Unit :=
  match key with
  | .str k =>
      if value.isNull || value.isUndefined then (.error .INVALID_VALUE, s)
      else
        match lookupD s.data k with
        | .arr xs =>
            save writeOk
              { s with data := setKey s.data k (.arr (xs.filter fun item => !jsStrictEq item value)) }
        | _ => (.ok (), s)
  | _ => (.error .INVALID_VALUE, s)

/-- `deleteKey(objectKey, key)` -/
def deleteKey (writeOk : Bool) (objectKey key : Val) (s : Store) : Result Unit :=
  match objectKey, key with
  | .str ok1, .str k =>
      if isObjectLike (lookupD s.data ok1) then
        save writeOk
          { s with data := setKey s.data ok1 (deleteOwnProp (lookupD s.data ok1) k) }
      else (.error .OBJECT_NOT_FOUND, s)
  | _, _ => (.error .INVALID_VALUE, s)

/-- `deleteEach(key)`: deletes every key starting with the given prefix,
then saves once. -/
def deleteEach (writeOk : Bool) (key : Val) (s : Store) : Result Unit :=
  match key with
  | .str k =>
      save writeOk { s with data := s.data.filter fun p => !strStartsWith p.1 k }
  | _ => (.error .INVALID_VALUE, s)

/-- `clear()` -/
def clear (writeOk : Bool) (s : Store) : Result Unit :=
  save writeOk { s with data := [] }

/-- `destroy()`: unlink the file, then `clear()`; any failure inside the try
block is rethrown as FILE_NOT_FOUND.  Unlink fails when the file is absent
(other I/O failures route to the same catch and are not distinguished). -/
def destroy (writeOk : Bool) (s : Store) : Result Unit :=
  match s.disk with
  | none => (.error .FILE_NOT_FOUND, s)
  | some _ =>
      match clear writeOk { s with disk := none } with
      | (.ok _, s1) => (.ok (), s1)
      | (.error _, s1) => (.error .FILE_NOT_FOUND, s1)

/-- `has(key)`: `this.data.hasOwnProperty(key)` -/
def has (key : Val) (s : Store) : Result Val :=
  match key with
  | .str k => (.ok (.bool (s.data.any fun p => p.1 == k)), s)
  | _ => (.error .INVALID_VALUE, s)

/-- `add(key, value)` -/
def add (writeOk : Bool) (key value : Val) (s : Store) : Result Unit :=
  match key, value with
  | .str k, .num v =>
      match lookupD s.data k with
      | .num n => save writeOk { s with data := setKey s.data k (.num (n + v)) }
      | _ => (.error .INVALID_VALUE, s)
  | _, _ => (.error .INVALID_VALUE, s)

/-- `subtract(key, value)` -/
def subtract (writeOk : Bool) (key value : Val) (s : Store) : Result Unit :=
  match key, value with
  | .str k, .num v =>
      match lookupD s.data k with
      | .num n => save writeOk { s with data := setKey s.data k (.num (n - v)) }
      | _ => (.error .INVALID_VALUE, s)
  | _, _ => (.error .INVALID_VALUE, s)

/-- `multiply(key, value)` -/
def multiply (writeOk : Bool) (key value : Val) (s : Store) : Result Unit :=
  match key, value with
  | .str k, .num v =>
      match lookupD s.data k with
      | .num n => save writeOk { s with data := setKey s.data k (.num (n * v)) }
      | _ => (.error .INVALID_VALUE, s)
  | _, _ => (.error .INVALID_VALUE, s)

/-- `divide(key, value)`: the zero guard sits inside the numeric-stored-value
branch and its throw site is `throw errors.DIVISION_BY_ZERO`, a key absent
from the error catalog, i.e. the thrown value is undefined. -/
def divide (writeOk : Bool) (key value : Val) (s : Store) : Result Unit :=
  match key, value with
  | .str k, .num v =>
      match lookupD s.data k with
      | .num n =>
          if v = 0 then (.error .undefinedThrown, s)
          else save writeOk { s with data := setKey s.data k (.num (n / v)) }
      | _ => (.error .INVALID_VALUE, s)
  | _, _ => (.error .INVALID_VALUE, s)

/-- `getAllKeys()`: Object.keys of the data map.  (JS lists integer-like
keys first; this reordering is not modelled and no claim depends on it.) -/
def getAllKeys (s : Store) : Result Val :=
  (.ok (.arr (s.data.map fun p => .str p.1)), s)

/-- `getAllValues()`: Object.values of the data map. -/
def getAllValues (s : Store) : Result Val :=
  (.ok (.arr (s.data.map fun p => p.2)), s)

end Database

/-- The file/memory synchronization invariant: the backing file holds
exactly the serialization of the current in-memory data. -/
def synced (s : Store) : Prop :=
  s.disk = some (jnormFields s.data)

/-- A concrete document used to instantiate the general theorems: a string
entry, a numeric entry and an array entry. -/
def wDoc : Doc := [("x", .str "hi"), ("n", .num 4), ("a", .arr [.num 1, .num 2])]

/-- A concrete store whose file is in sync with its data. -/
def wStore : Store := ⟨"morsel-database.json", wDoc, some (jnormFields wDoc)⟩

/-- A concrete store whose backing file is absent. -/
def nStore : Store := ⟨"morsel-database.json", [("a", .num 1)], none⟩

/-- A concrete synced store used to build the staleness scenario. -/
def cStore : Store := ⟨"morsel-database.json", [("a", .num 1)], some [("a", .num 1)]⟩

/-- A concrete document holding only an array entry. -/
def a3Doc : Doc := [("a", .arr [.num 1, .num 2])]

/-- A concrete synced store holding only an array entry. -/
def st3 : Store := ⟨"morsel-database.json", a3Doc, some (jnormFields a3Doc)⟩

/-- The JS number one half: a number for which Number.isInteger is false. -/
def half : Rat := ⟨1, 2, by decide, by decide⟩

/-- A successful save leaves the file holding exactly the serialization of
the data it was called with. -/
theorem synced_save2 (writeOk : Bool) (s1 : Store)
    (h : (Database.save writeOk s1).1 = .ok ()) :
    synced (Database.save writeOk s1).2 := by
  cases writeOk
  · exact Except.noConfusion h
  · rfl

/-- Claim C10: deleteEach with the empty-string prefix removes every key and
is equivalent to clear, both for the resulting in-memory data and for the
persisted file content (and for the reported result). -/
theorem claim_C10 (writeOk : Bool) (s : Store) :
    Database.deleteEach writeOk (.str "") s = Database.clear writeOk s := by
  have h : (s.data.filter fun p => !strStartsWith p.1 "") = [] := by
    refine List.filter_eq_nil_iff.mpr ?_
    intro a _
    simp [strStartsWith, List.isPrefixOf]
  simp only [Database.deleteEach, Database.clear, h]

/-- Claim C9: the read operations fetch, has, objectFetch, arrayFetch,
getAllKeys and getAllValues leave the store (data and file) unchanged, and
fetch returns the stored value, or the absent indicator (undefined) when the
key is missing. -/
theorem claim_C9 (s : Store) :
    (∀ key : Val, (Database.fetch key s).2 = s)
  ∧ (∀ key : Val, (Database.has key s).2 = s)
  ∧ (∀ key subKey : Val, (Database.objectFetch key subKey s).2 = s)
  ∧ (∀ key index : Val, (Database.arrayFetch key index s).2 = s)
  ∧ ((Database.getAllKeys s).2 = s)
  ∧ ((Database.getAllValues s).2 = s)
  ∧ (∀ k : String, Database.fetch (.str k) s = (.ok (lookupD s.data k), s)) := by
  refine ⟨fun key => ?_, fun key => ?_, fun key subKey => ?_, fun key index => ?_,
          rfl, rfl, fun k => rfl⟩
  · cases key <;> rfl
  · cases key <;> rfl
  · cases key <;> cases subKey <;> try rfl
    rename_i k sk
    cases hobj : isObjectLike (lookupD s.data k) <;> simp [Database.objectFetch, hobj]
  · cases key <;> cases index <;> try rfl
    all_goals
      simp only [Database.arrayFetch]
      split
      · split <;> rfl
      · rfl

/-- Claim C5: when the stored value at the key is not a number (including an
absent key), each arithmetic operation fails with INVALID_VALUE and leaves
the store unchanged — no auto-initialization to zero. -/
theorem claim_C5 (writeOk : Bool) (k : String) (q : Rat) (s : Store)
    (h : (lookupD s.data k).isNum = false) :
    Database.add writeOk (.str k) (.num q) s = (.error .INVALID_VALUE, s)
  ∧ Database.subtract writeOk (.str k) (.num q) s = (.error .INVALID_VALUE, s)
  ∧ Database.multiply writeOk (.str k) (.num q) s = (.error .INVALID_VALUE, s)
  ∧ Database.divide writeOk (.str k) (.num q) s = (.error .INVALID_VALUE, s) := by
  cases hv : lookupD s.data k
  case num n => rw [hv] at h; simp [Val.isNum] at h
  all_goals
    exact ⟨by simp [Database.add, hv], by simp [Database.subtract, hv],
           by simp [Database.multiply, hv], by simp [Database.divide, hv]⟩

/-- Claim C5 witness: adding to a key holding a string fails with
INVALID_VALUE and changes nothing. -/
theorem claim_C5_witness :
    Database.add true (.str "x") (.num 1) wStore = (.error .INVALID_VALUE, wStore)
  ∧ Database.subtract true (.str "x") (.num 1) wStore = (.error .INVALID_VALUE, wStore)
  ∧ Database.multiply true (.str "x") (.num 1) wStore = (.error .INVALID_VALUE, wStore)
  ∧ Database.divide true (.str "x") (.num 1) wStore = (.error .INVALID_VALUE, wStore) :=
  claim_C5 true "x" 1 wStore (by decide)

/-- Claim C7: arrayFetch fails with INVALID_VALUE on a non-string key or a
non-integer index, fails with ARRAY_NOT_FOUND when the entry is not an
array, and on an array returns the element at the zero-based index when in
range and the absent indicator (undefined, not an error) when out of range
(including negative indices). -/
theorem claim_C7 (s : Store) :
    (∀ key index : Val, key.isStr = false →
        Database.arrayFetch key index s = (.error .INVALID_VALUE, s))
  ∧ (∀ (k : String) (index : Val), index.isIntNum = false →
        Database.arrayFetch (.str k) index s = (.error .INVALID_VALUE, s))
  ∧ (∀ (k : String) (q : Rat), q.den = 1 → (lookupD s.data k).isArr = false →
        Database.arrayFetch (.str k) (.num q) s = (.error .ARRAY_NOT_FOUND, s))
  ∧ (∀ (k : String) (q : Rat) (xs : List Val), q.den = 1 → lookupD s.data k = .arr xs →
        ((q.num < 0 ∨ (xs.length : Int) ≤ q.num) →
            Database.arrayFetch (.str k) (.num q) s = (.ok .undefined, s))
      ∧ (∀ i : Nat, q.num = i → ∀ h : i < xs.length,
            Database.arrayFetch (.str k) (.num q) s = (.ok (xs.get ⟨i, h⟩), s))) := by
  refine ⟨?_, ?_, ?_, ?_⟩
  · intro key index hk
    cases key <;> cases index <;> first | rfl | simp [Val.isStr] at hk
  · intro k index hi
    cases index <;> try rfl
    rename_i q
    have hden : ¬q.den = 1 := by simpa [Val.isIntNum] using hi
    simp [Database.arrayFetch, hden]
  · intro k q hden hnot
    cases hv : lookupD s.data k
    case arr xs => rw [hv] at hnot; simp [Val.isArr] at hnot
    all_goals simp [Database.arrayFetch, hden, hv]
  · intro k q xs hden hv
    constructor
    · intro hout
      simp [Database.arrayFetch, hden, hv]
      intro hle hlt
      exfalso
      rw [← Rat.num_nonneg] at hle
      rcases hout with h1 | h1 <;> omega
    · intro i hqi h
      have hc : 0 ≤ q.num ∧ q.num < (xs.length : Int) := by omega
      have hnat : q.num.toNat = i := by omega
      simp [Database.arrayFetch, hden, hv, hc, hnat]
      rw [List.getElem?_eq_getElem h]
      rfl

/-- Claim C7 witness: on a store holding the two-element array at key a,
arrayFetch behaves as stated at concrete inputs — non-string key, non-integer
index, non-array entry, in-range index and out-of-range index. -/
theorem claim_C7_witness :
    Database.arrayFetch (.num 3) (.num 0) wStore = (.error .INVALID_VALUE, wStore)
  ∧ Database.arrayFetch (.str "a") (.str "0") wStore = (.error .INVALID_VALUE, wStore)
  ∧ Database.arrayFetch (.str "a") (.num half) wStore = (.error .INVALID_VALUE, wStore)
  ∧ Database.arrayFetch (.str "x") (.num 0) wStore = (.error .ARRAY_NOT_FOUND, wStore)
  ∧ Database.arrayFetch (.str "a") (.num 1) wStore = (.ok (.num 2), wStore)
  ∧ Database.arrayFetch (.str "a") (.num 5) wStore = (.ok .undefined, wStore) :=
  ⟨(claim_C7 wStore).1 (.num 3) (.num 0) (by decide),
   (claim_C7 wStore).2.1 "a" (.str "0") (by decide),
   (claim_C7 wStore).2.1 "a" (.num half) (by decide),
   (claim_C7 wStore).2.2.1 "x" 0 (by decide) (by decide),
   ((claim_C7 wStore).2.2.2 "a" 1 [.num 1, .num 2] (by decide) rfl).2 1 (by decide) (by decide),
   ((claim_C7 wStore).2.2.2 "a" 5 [.num 1, .num 2] (by decide) rfl).1 (by decide)⟩

/-- Claim C6: push never raises ARRAY_NOT_FOUND; a non-array (missing or
wrong-typed) entry is first replaced with a fresh empty array, the value is
appended and the state persisted; in particular push onto a key holding a
string leaves the one-element array of the pushed value. -/
theorem claim_C6 (writeOk : Bool) (s : Store) :
    (∀ key value : Val, (Database.push writeOk key value s).1 ≠ .error .ARRAY_NOT_FOUND)
  ∧ (∀ (k : String) (value : Val), value.isNull = false → value.isUndefined = false →
        Database.push true (.str k) value s =
          (.ok (), ⟨s.filePath,
            setKey s.data k (.arr (coerceArr (lookupD s.data k) ++ [value])),
            some (jnormFields (setKey s.data k
              (.arr (coerceArr (lookupD s.data k) ++ [value]))))⟩))
  ∧ (∀ (k : String) (value : Val), (lookupD s.data k).isArr = false →
        value.isNull = false → value.isUndefined = false →
        (Database.push true (.str k) value s).2.data = setKey s.data k (.arr [value])) := by
  refine ⟨?_, ?_, ?_⟩
  · intro key value
    cases key
    case str k =>
      by_cases hv : (value.isNull || value.isUndefined) = true
      · simp [Database.push, hv]
      · cases writeOk
        · simp [Database.push, hv, Database.save]
        · simp only [Database.push, if_neg hv, Database.save, if_pos]
          intro h
          exact Except.noConfusion h
    all_goals simp [Database.push]
  · intro k value h1 h2
    simp [Database.push, h1, h2, Database.save]
  · intro k value hv h1 h2
    have hco : coerceArr (lookupD s.data k) = [] := by
      cases hl : lookupD s.data k <;> rw [hl] at hv <;>
        first | rfl | simp [Val.isArr] at hv
    simp [Database.push, h1, h2, Database.save, hco]

/-- Claim C6 witness: push onto the key holding the string hi replaces it
with the one-element array of the pushed value, persists, and does not
raise ARRAY_NOT_FOUND. -/
theorem claim_C6_witness :
    Database.push true (.str "x") (.num 9) wStore =
      (.ok (), ⟨wStore.filePath,
        setKey wStore.data "x" (.arr (coerceArr (lookupD wStore.data "x") ++ [.num 9])),
        some (jnormFields (setKey wStore.data "x"
          (.arr (coerceArr (lookupD wStore.data "x") ++ [.num 9]))))⟩)
  ∧ (Database.push true (.str "x") (.num 9) wStore).2.data =
      setKey wStore.data "x" (.arr [.num 9]) :=
  ⟨(claim_C6 true wStore).2.1 "x" (.num 9) (by decide) (by decide),
   (claim_C6 true wStore).2.2 "x" (.num 9) (by decide) (by decide) (by decide)⟩

/-- Claim C8: when the save step fails after the in-memory mutation has been
applied, the mutation is not rolled back — the new data stays in memory, the
file is unchanged and the failure is raised to the caller — shown for each
mutating operation that reaches save. -/
theorem claim_C8 (s : Store) (k : String) (value : Val) (q : Rat) :
    (value.isNull = false → value.isUndefined = false →
      Database.set false (.str k) value s =
        (.error .FILE_NOT_FOUND, { s with data := setKey s.data k value }))
  ∧ (value.isNull = false → value.isUndefined = false →
      Database.push false (.str k) value s =
        (.error .FILE_NOT_FOUND,
          { s with data := setKey s.data k (.arr (coerceArr (lookupD s.data k) ++ [value])) }))
  ∧ (Database.remove false (.str k) s =
        (.error .FILE_NOT_FOUND, { s with data := removeKey s.data k }))
  ∧ (Database.clear false s = (.error .FILE_NOT_FOUND, { s with data := [] }))
  ∧ (Database.deleteEach false (.str k) s =
        (.error .FILE_NOT_FOUND,
          { s with data := s.data.filter fun p => !strStartsWith p.1 k }))
  ∧ (∀ n : Rat, lookupD s.data k = .num n →
      Database.add false (.str k) (.num q) s =
        (.error .FILE_NOT_FOUND, { s with data := setKey s.data k (.num (n + q)) }))
  ∧ (∀ xs : List Val, lookupD s.data k = .arr xs →
      value.isNull = false → value.isUndefined = false →
      Database.delete false (.str k) value s =
        (.error .FILE_NOT_FOUND,
          { s with data := setKey s.data k (.arr (xs.filter fun item => !jsStrictEq item value)) }))
  ∧ (∀ xs : List Val, lookupD s.data k = .arr xs → ∀ sub : String,
      Database.deleteKey false (.str k) (.str sub) s =
        (.error .FILE_NOT_FOUND,
          { s with data := setKey s.data k (deleteOwnProp (.arr xs) sub) }))
  ∧ (∀ d : Doc, s.disk = some d →
      Database.destroy false s = (.error .FILE_NOT_FOUND, ⟨s.filePath, [], none⟩)) := by
  refine ⟨fun h1 h2 => ?_, fun h1 h2 => ?_, ?_, rfl, ?_, fun n hv => ?_,
          fun xs hv h1 h2 => ?_, fun xs hv sub => ?_, fun d hd => ?_⟩
  · simp [Database.set, h1, h2, Database.save]
  · simp [Database.push, h1, h2, Database.save]
  · simp [Database.remove, Database.save]
  · simp [Database.deleteEach, Database.save]
  · simp [Database.add, hv, Database.save]
  · simp [Database.delete, h1, h2, hv, Database.save]
  · simp [Database.deleteKey, hv, isObjectLike, Database.save]
  · rcases s with ⟨fp, dt, dsk⟩
    cases dsk
    · exact Option.noConfusion hd
    · rfl

/-- Claim C8 witness: a failed save after set leaves the new entry in memory,
the file unchanged, and reports FILE_NOT_FOUND; likewise for clear. -/
theorem claim_C8_witness :
    Database.set false (.str "k") (.num 7) wStore =
      (.error .FILE_NOT_FOUND, { wStore with data := setKey wStore.data "k" (.num 7) })
  ∧ Database.clear false wStore = (.error .FILE_NOT_FOUND, { wStore with data := [] }) :=
  ⟨(claim_C8 wStore "k" (.num 7) 0).1 (by decide) (by decide),
   (claim_C8 wStore "k" (.num 7) 0).2.2.2.1⟩

/-- Claim C1 counterexample: from a synced store, a failed save in set
leaves memory ahead of disk; a subsequent delete whose target entry is not
an array completes successfully without writing (its silent no-op branch),
so a mutating operation completes successfully while the on-disk document
is not the serialization of the current data. -/
theorem claim_C1_counterexample :
    synced cStore
  ∧ (Database.set false (.str "b") (.num 2) cStore).1 = .error .FILE_NOT_FOUND
  ∧ (Database.delete true (.str "a") (.num 1)
        (Database.set false (.str "b") (.num 2) cStore).2).1 = .ok ()
  ∧ ¬ synced (Database.delete true (.str "a") (.num 1)
        (Database.set false (.str "b") (.num 2) cStore).2).2 :=
  ⟨rfl, rfl, rfl, fun h =>
    (by decide : ¬(1 = 2)) (congrArg (fun o : Option Doc => (o.getD []).length) h)⟩

/-- Claim C1 (amended): after a successful set, push, deleteKey, deleteEach,
remove, clear or destroy, the on-disk document is the exact serialization of
the current data — every success path of these operations ends in a
successful save.  delete only preserves the invariant: its silent no-op
branch (entry not an array) succeeds without writing, so the invariant holds
afterwards only if it held before. -/
theorem claim_C1_amended (writeOk : Bool) (key value key2 : Val) (s : Store) :
    ((Database.set writeOk key value s).1 = .ok () →
        synced (Database.set writeOk key value s).2)
  ∧ ((Database.push writeOk key value s).1 = .ok () →
        synced (Database.push writeOk key value s).2)
  ∧ ((Database.deleteKey writeOk key key2 s).1 = .ok () →
        synced (Database.deleteKey writeOk key key2 s).2)
  ∧ ((Database.deleteEach writeOk key s).1 = .ok () →
        synced (Database.deleteEach writeOk key s).2)
  ∧ ((Database.remove writeOk key s).1 = .ok () →
        synced (Database.remove writeOk key s).2)
  ∧ ((Database.clear writeOk s).1 = .ok () → synced (Database.clear writeOk s).2)
  ∧ ((Database.destroy writeOk s).1 = .ok () → synced (Database.destroy writeOk s).2)
  ∧ (synced s → (Database.delete writeOk key value s).1 = .ok () →
        synced (Database.delete writeOk key value s).2) := by
  refine ⟨?_, ?_, ?_, ?_, ?_, ?_, ?_, ?_⟩
  · intro h
    cases key
    case str k =>
      simp only [Database.set] at h ⊢
      by_cases hv : (value.isNull || value.isUndefined) = true
      · rw [if_pos hv] at h; exact Except.noConfusion h
      · rw [if_neg hv] at h ⊢
        exact synced_save2 writeOk _ h
    all_goals exact Except.noConfusion h
  · intro h
    cases key
    case str k =>
      simp only [Database.push] at h ⊢
      by_cases hv : (value.isNull || value.isUndefined) = true
      · rw [if_pos hv] at h; exact Except.noConfusion h
      · rw [if_neg hv] at h ⊢
        exact synced_save2 writeOk _ h
    all_goals exact Except.noConfusion h
  · intro h
    cases key
    case str k =>
      cases key2
      case str sub =>
        simp only [Database.deleteKey] at h ⊢
        by_cases ho : isObjectLike (lookupD s.data k) = true
        · rw [if_pos ho] at h ⊢
          exact synced_save2 writeOk _ h
        · rw [if_neg ho] at h; exact Except.noConfusion h
      all_goals exact Except.noConfusion h
    all_goals exact Except.noConfusion h
  · intro h
    cases key
    case str k => exact synced_save2 writeOk _ h
    all_goals exact Except.noConfusion h
  · intro h
    cases key
    case str k => exact synced_save2 writeOk _ h
    all_goals exact Except.noConfusion h
  · intro h
    exact synced_save2 writeOk _ h
  · intro h
    rcases s with ⟨fp, dt, dsk⟩
    cases dsk <;> cases writeOk <;> first | exact Except.noConfusion h | rfl
  · intro hs h
    cases key
    case str k =>
      simp only [Database.delete] at h ⊢
      by_cases hv : (value.isNull || value.isUndefined) = true
      · rw [if_pos hv] at h; exact Except.noConfusion h
      · rw [if_neg hv] at h ⊢
        cases hl : lookupD s.data k
        case neg.arr xs =>
          rw [hl] at h
          exact synced_save2 writeOk _ h
        all_goals exact hs
    all_goals exact Except.noConfusion h

/-- Claim C1 witness: concrete successful mutators re-establish the
file/memory synchronization invariant. -/
theorem claim_C1_witness :
    synced (Database.set true (.str "k") (.num 7) wStore).2
  ∧ synced (Database.push true (.str "x") (.num 9) wStore).2
  ∧ synced (Database.clear true wStore).2
  ∧ synced (Database.destroy true wStore).2
  ∧ synced (Database.delete true (.str "a") (.num 1) wStore).2 :=
  ⟨(claim_C1_amended true (.str "k") (.num 7) (.str "z") wStore).1 rfl,
   (claim_C1_amended true (.str "x") (.num 9) (.str "z") wStore).2.1 rfl,
   (claim_C1_amended true (.str "k") (.num 7) (.str "z") wStore).2.2.2.2.2.1 rfl,
   (claim_C1_amended true (.str "k") (.num 7) (.str "z") wStore).2.2.2.2.2.2.1 rfl,
   (claim_C1_amended true (.str "a") (.num 1) (.str "z") wStore).2.2.2.2.2.2.2 rfl rfl⟩

/-- Claim C2 counterexample: divide with a zero operand fails with
INVALID_VALUE — not a division-by-zero kind — when the stored value is
absent (key zz) or a string (key x): the numeric-stored-value check runs
before the zero guard.  INVALID_VALUE is distinct from the value the
zero-guard throw site produces. -/
theorem claim_C2_counterexample :
    Database.divide true (.str "zz") (.num 0) wStore = (.error .INVALID_VALUE, wStore)
  ∧ Database.divide true (.str "x") (.num 0) wStore = (.error .INVALID_VALUE, wStore)
  ∧ Err.INVALID_VALUE ≠ Err.undefinedThrown :=
  ⟨rfl, rfl, by decide⟩

/-- Claim C2 (amended): divide(key, 0) reaches the division-by-zero guard
only when the stored value at the key is numeric, and there throws the value
of errors.DIVISION_BY_ZERO — a key the error catalog does not define, hence
the undefined placeholder rather than a catalogued DivisionByZero error;
when the stored value is non-numeric or absent, divide(key, 0) fails earlier
with INVALID_VALUE.  The store is unchanged either way. -/
theorem claim_C2_amended (writeOk : Bool) (k : String) (s : Store) :
    ((lookupD s.data k).isNum = false →
        Database.divide writeOk (.str k) (.num 0) s = (.error .INVALID_VALUE, s))
  ∧ (∀ n : Rat, lookupD s.data k = .num n →
        Database.divide writeOk (.str k) (.num 0) s = (.error .undefinedThrown, s)) := by
  constructor
  · intro h
    cases hv : lookupD s.data k
    case num n => rw [hv] at h; simp [Val.isNum] at h
    all_goals simp [Database.divide, hv]
  · intro n hv
    simp [Database.divide, hv]

/-- Claim C2 witness: divide by zero on a string-valued key fails with
INVALID_VALUE; on a numeric key it throws the undefined placeholder of the
missing DIVISION_BY_ZERO catalog entry. -/
theorem claim_C2_witness :
    Database.divide true (.str "x") (.num 0) wStore = (.error .INVALID_VALUE, wStore)
  ∧ Database.divide true (.str "n") (.num 0) wStore = (.error .undefinedThrown, wStore) :=
  ⟨(claim_C2_amended true "x" wStore).1 (by decide),
   (claim_C2_amended true "n" wStore).2 4 rfl⟩

/-- Claim C3 counterexample: on a store whose entry at key a is an array,
objectFetch succeeds (returning undefined for a non-index sub-key) and
deleteKey succeeds (turning element 0 into a hole) — neither fails with
OBJECT_NOT_FOUND, because an array passes the typeof object check. -/
theorem claim_C3_counterexample :
    (Database.objectFetch (.str "a") (.str "sub") st3).1 = .ok .undefined
  ∧ (Database.objectFetch (.str "a") (.str "sub") st3).1 ≠ .error .OBJECT_NOT_FOUND
  ∧ (Database.deleteKey true (.str "a") (.str "0") st3).1 = .ok ()
  ∧ (Database.deleteKey true (.str "a") (.str "0") st3).1 ≠ .error .OBJECT_NOT_FOUND
  ∧ (Database.deleteKey true (.str "a") (.str "0") st3).2.data =
      [("a", .arr [.undefined, .num 2])] :=
  ⟨rfl, fun h => Except.noConfusion h, rfl, fun h => Except.noConfusion h, rfl⟩

/-- Claim C3 (amended): objectFetch and deleteKey fail with OBJECT_NOT_FOUND
exactly when the entry at the targeted key is absent, null or a primitive
(number, boolean, string).  An array passes the check and the operation acts
on the array as an object: objectFetch reads its own property at the sub-key
(an element for an index string, the length property, undefined otherwise)
and deleteKey deletes the own property (making an in-range index a hole) and
persists.  A plain object behaves as the original claim states. -/
theorem claim_C3_amended (s : Store) (k sk : String) (writeOk : Bool) :
    (isObjectLike (lookupD s.data k) = false →
        Database.objectFetch (.str k) (.str sk) s = (.error .OBJECT_NOT_FOUND, s)
      ∧ Database.deleteKey writeOk (.str k) (.str sk) s = (.error .OBJECT_NOT_FOUND, s))
  ∧ (∀ xs : List Val, lookupD s.data k = .arr xs →
        Database.objectFetch (.str k) (.str sk) s = (.ok (getOwnProp (.arr xs) sk), s)
      ∧ Database.deleteKey true (.str k) (.str sk) s =
          (.ok (), ⟨s.filePath, setKey s.data k (deleteOwnProp (.arr xs) sk),
            some (jnormFields (setKey s.data k (deleteOwnProp (.arr xs) sk)))⟩))
  ∧ (∀ fs : Doc, lookupD s.data k = .obj fs →
        Database.objectFetch (.str k) (.str sk) s = (.ok (lookupD fs sk), s)
      ∧ Database.deleteKey true (.str k) (.str sk) s =
          (.ok (), ⟨s.filePath, setKey s.data k (.obj (removeKey fs sk)),
            some (jnormFields (setKey s.data k (.obj (removeKey fs sk))))⟩)) := by
  refine ⟨fun h => ⟨?_, ?_⟩, fun xs hv => ⟨?_, ?_⟩, fun fs hv => ⟨?_, ?_⟩⟩
  · simp [Database.objectFetch, h]
  · simp [Database.deleteKey, h]
  · simp [Database.objectFetch, hv, isObjectLike]
  · simp [Database.deleteKey, hv, isObjectLike, Database.save]
  · simp [Database.objectFetch, hv, isObjectLike, getOwnProp]
  · simp [Database.deleteKey, hv, isObjectLike, Database.save, deleteOwnProp]

/-- Claim C3 witness: a numeric entry gives OBJECT_NOT_FOUND for both
operations; an array entry is fetched from and deleted from as an object. -/
theorem claim_C3_witness :
    Database.objectFetch (.str "n") (.str "sub") wStore = (.error .OBJECT_NOT_FOUND, wStore)
  ∧ Database.deleteKey true (.str "n") (.str "sub") wStore =
      (.error .OBJECT_NOT_FOUND, wStore)
  ∧ Database.objectFetch (.str "a") (.str "1") wStore =
      (.ok (getOwnProp (.arr [.num 1, .num 2]) "1"), wStore)
  ∧ Database.deleteKey true (.str "a") (.str "1") wStore =
      (.ok (), ⟨wStore.filePath,
        setKey wStore.data "a" (deleteOwnProp (.arr [.num 1, .num 2]) "1"),
        some (jnormFields (setKey wStore.data "a"
          (deleteOwnProp (.arr [.num 1, .num 2]) "1")))⟩) :=
  ⟨((claim_C3_amended wStore "n" "sub" true).1 (by decide)).1,
   ((claim_C3_amended wStore "n" "sub" true).1 (by decide)).2,
   ((claim_C3_amended wStore "a" "1" true).2.1 [.num 1, .num 2] rfl).1,
   ((claim_C3_amended wStore "a" "1" true).2.1 [.num 1, .num 2] rfl).2⟩

/-- Claim C4 counterexample: destroy on a synced store succeeds, yet the
backing file exists afterwards — clear() inside destroy saves the empty
state, recreating the file. -/
theorem claim_C4_counterexample :
    (Database.destroy true cStore).1 = .ok ()
  ∧ (Database.destroy true cStore).2.disk ≠ none :=
  ⟨rfl, fun h => Option.noConfusion h⟩

/-- Claim C4 (amended): after a successful destroy, getAllKeys is empty and
the store stays usable for a subsequent set; the backing file does exist
again, holding the serialization of the empty mapping, because destroy
deletes the file and then clear() re-persists the empty state.  destroy
fails with FILE_NOT_FOUND when the file deletion fails (the file is
absent). -/
theorem claim_C4_amended (writeOk : Bool) (s : Store) :
    (∀ d : Doc, s.disk = some d →
        Database.destroy true s = (.ok (), ⟨s.filePath, [], some []⟩)
      ∧ Database.getAllKeys (Database.destroy true s).2 =
          (.ok (.arr []), ⟨s.filePath, [], some []⟩)
      ∧ (∀ (k : String) (value : Val), value.isNull = false → value.isUndefined = false →
          Database.set true (.str k) value (Database.destroy true s).2 =
            (.ok (), ⟨s.filePath, [(k, value)], some (jnormFields [(k, value)])⟩)))
  ∧ (s.disk = none → Database.destroy writeOk s = (.error .FILE_NOT_FOUND, s)) := by
  rcases s with ⟨fp, dt, dsk⟩
  constructor
  · intro d hd
    cases dsk
    · exact Option.noConfusion hd
    · refine ⟨rfl, rfl, fun k value h1 h2 => ?_⟩
      simp [Database.destroy, Database.clear, Database.save, Database.set, h1, h2, setKey]
  · intro hd
    cases dsk
    · rfl
    · exact Option.noConfusion hd

/-- Claim C4 witness: destroying a concrete synced store empties the keys,
leaves the file existing with the empty serialization, a subsequent set
succeeds; destroy on a store whose file is absent fails FILE_NOT_FOUND. -/
theorem claim_C4_witness :
    Database.destroy true wStore = (.ok (), ⟨wStore.filePath, [], some []⟩)
  ∧ Database.getAllKeys (Database.destroy true wStore).2 =
      (.ok (.arr []), ⟨wStore.filePath, [], some []⟩)
  ∧ Database.set true (.str "k") (.num 7) (Database.destroy true wStore).2 =
      (.ok (), ⟨wStore.filePath, [("k", .num 7)], some (jnormFields [("k", .num 7)])⟩)
  ∧ Database.destroy true nStore = (.error .FILE_NOT_FOUND, nStore) :=
  ⟨((claim_C4_amended true wStore).1 (jnormFields wDoc) rfl).1,
   ((claim_C4_amended true wStore).1 (jnormFields wDoc) rfl).2.1,
   ((claim_C4_amended true wStore).1 (jnormFields wDoc) rfl).2.2 "k" (.num 7)
     (by decide) (by decide),
   (claim_C4_amended true nStore).2 rfl⟩

end Morsel
